import Mathlib

/-!
Shallow embedding of the persistence and remote-reporting subsystem of the
monika monitoring agent, covering `src/components/logger/history.ts` and
`src/components/reporter/index.ts`.

The sqlite-backed `history` table is embedded as a list of rows; the SQL
statements issued by `history.ts` are embedded by their effect on that list,
following sqlite semantics (an `UPDATE ... WHERE id IN (...)` touches exactly
the matching rows and reports no error for ids that match nothing, while an
empty `IN ()` list is a syntax error that makes `db.run` report an error, so
the wrapping promise rejects). Asynchronous callback results are embedded as
`Except` values (rejection = `.error`) together with the list of lines written
through the logger.
-/

namespace History

/-- A row of the `history` table as created by `createTable` in
`src/components/logger/history.ts`: columns `id` (INTEGER PRIMARY KEY),
`created_at`, `probe_id`, `status_code`, `probe_name`, `probe_url`,
`response_time`, `error_resp`, and `reported` (INTEGER DEFAULT 0, embedded
as `Bool`). -/
structure HistoryRow where
  id : Nat
  created_at : String
  probe_id : String
  status_code : Int
  probe_name : String
  probe_url : String
  response_time : Int
  error_resp : String
  reported : Bool
deriving DecidableEq, Repr

/-- The `history` table: its rows in insertion (rowid) order. -/
abbrev HistoryTable := List HistoryRow

/-- `createTable` runs `CREATE TABLE IF NOT EXISTS history (...)`: when the
table already exists (`some rows`) it is left untouched, otherwise an empty
table is created. -/
def createTable (existing : Option HistoryTable) : HistoryTable :=
  match existing with
  | some rows => rows
  | none => ([] : List HistoryRow)

/-- `openLogfile` opens `monika-logs.db` with OPEN_READWRITE | OPEN_CREATE.
Its completion callback logs `warning: cannot open logfile. error: <msg>`
via `log.info` when sqlite reports an open error, and then calls
`createTable` in every case; `openLogfile` itself never rejects. `existing`
is the table held in the file (`none` when the file is absent), `openErr`
the sqlite open error, and the returned list the lines logged. -/
def openLogfile (existing : Option HistoryTable) (openErr : Option String) :
    Except String (HistoryTable × List String) :=
  Except.ok
    (createTable existing,
      match openErr with
      | some m => ["warning: cannot open logfile. error: " ++ m]
      | none => [])

/-- Row shape returned by `getAllLogs`: the SELECT list
`rowid AS id, probe_id, status_code, probe_url, response_time`. -/
structure HistoryLogType where
  id : Nat
  probe_id : String
  status_code : Int
  probe_url : String
  response_time : Int
deriving DecidableEq, Repr

/-- `getAllLogs`: `SELECT rowid AS id, probe_id, status_code, probe_url,
response_time FROM history` — a full scan of the table. -/
def getAllLogs (t : HistoryTable) : List HistoryLogType :=
  t.map fun r =>
    { id := r.id, probe_id := r.probe_id, status_code := r.status_code,
      probe_url := r.probe_url, response_time := r.response_time }

/-- Row shape returned by `getUnreportedLogs`: the SELECT list
`id, created_at, probe_id, status_code, probe_name, probe_url,
response_time, error_resp` (the `reported` column is not selected). -/
structure HistoryReportLogType where
  id : Nat
  created_at : String
  probe_id : String
  status_code : Int
  probe_name : String
  probe_url : String
  response_time : Int
  error_resp : String
deriving DecidableEq, Repr

/-- The projection applied by `getUnreportedLogs`'s SELECT list to a row. -/
def reportView (r : HistoryRow) : HistoryReportLogType :=
  { id := r.id, created_at := r.created_at, probe_id := r.probe_id,
    status_code := r.status_code, probe_name := r.probe_name,
    probe_url := r.probe_url, response_time := r.response_time,
    error_resp := r.error_resp }

/-- `getUnreportedLogs`: `SELECT ... FROM history WHERE reported = 0`. -/
def getUnreportedLogs (t : HistoryTable) : List HistoryReportLogType :=
  (t.filter fun r => !r.reported).map reportView

/-- The text interpolated into the IN list: `ids.join(', ')`. -/
def idList (ids : List Nat) : String :=
  String.intercalate ", " (ids.map toString)

/-- The SQL text built by `setLogsAsReported`:
`UPDATE history SET reported = 1 WHERE id IN (<ids.join(', ')>)`. -/
def updateRowsSQL (ids : List Nat) : String :=
  "UPDATE history SET reported = 1 WHERE id IN (" ++ idList ids ++ ")"

/-- Effect of the UPDATE on one row: rows whose `id` is in the IN list get
`reported = 1`, all other rows are untouched. -/
def markRow (ids : List Nat) (r : HistoryRow) : HistoryRow :=
  if ids.contains r.id then { r with reported := true } else r

/-- `setLogsAsReported` runs `updateRowsSQL ids` through `db.run` and wraps
the callback in a promise. Per sqlite semantics, an empty id list yields the
malformed statement `... IN ()` (a syntax error), so `db.run` reports an
error, no row changes, and the promise rejects with
`error, cannot mark logs as updated in history.db: <err>`; a non-empty list
is a valid UPDATE that sets `reported = 1` for exactly the rows whose id is
listed — ids that match no row are simply ignored, which is not an error. -/
def setLogsAsReported (ids : List Nat) (t : HistoryTable) :
    Except String HistoryTable :=
  if ids.isEmpty then
    Except.error
      ("error, cannot mark logs as updated in history.db: " ++
        "near \x22)\x22: syntax error")
  else
    Except.ok (t.map (markRow ids))

/-- `flushAllLogs`: `DROP TABLE IF EXISTS history` followed by
`createTable` — the table is recreated empty. -/
def flushAllLogs (_t : HistoryTable) : HistoryTable :=
  createTable none

/-- The rowid sqlite assigns to a fresh INTEGER PRIMARY KEY row: one more
than the largest rowid currently in the table (1 on an empty table). -/
def maxId (t : HistoryTable) : Nat :=
  t.foldr (fun r m => max r.id m) 0

/-- `saveLog` runs `INSERT into history (probe_id, created_at, status_code,
probe_name, probe_url, response_time, error_resp) VALUES(?, ...)`; the `id`
and `reported` columns are not supplied, so sqlite assigns `maxId t + 1` and
the default `reported = 0`. -/
def saveLog (t : HistoryTable) (probe_id created_at : String)
    (status_code : Int) (probe_name probe_url : String)
    (response_time : Int) (error_resp : String) : HistoryTable :=
  t ++
    [{ id := maxId t + 1, created_at := created_at, probe_id := probe_id,
       status_code := status_code, probe_name := probe_name,
       probe_url := probe_url, response_time := response_time,
       error_resp := error_resp, reported := false }]

/-- The store operations a caller of `history.ts` can interleave
(`closeLog` and `flushAllLogs` aside): inserts, mark-reported updates, and
the two reads. -/
inductive HistoryOp
  | insert (probe_id created_at : String) (status_code : Int)
      (probe_name probe_url : String) (response_time : Int)
      (error_resp : String)
  | mark (ids : List Nat)
  | readAll
  | readUnreported
deriving DecidableEq

/-- State transition of one operation. A rejected `setLogsAsReported`
(empty id list) leaves the table unchanged. Reads do not mutate. -/
def applyOp (t : HistoryTable) : HistoryOp → HistoryTable
  | HistoryOp.insert a b c d e f g => saveLog t a b c d e f g
  | HistoryOp.mark ids => ((setLogsAsReported ids t).toOption).getD t
  | HistoryOp.readAll => t
  | HistoryOp.readUnreported => t

/-- Running a sequence of operations left to right. -/
def applyOps (t : HistoryTable) (ops : List HistoryOp) : HistoryTable :=
  ops.foldl applyOp t

end History

namespace Reporter

/-!
Embedding of `src/components/reporter/index.ts`. The reporter imports
`getUnreportedLogs` (returning a `{requests, notifications}` pair),
`setRequestLogAsReported` and `setNotificationLogAsReported` from the logger
module; the copy of `history.ts` under `src/` predates those per-table
exports (it has a single `history` table and a single `setLogsAsReported`),
so the two-table store the reporter works against is modelled from the spec
(§2, §3, §4.1, and the §9 note that the two tables share the lifecycle
contract of the single observed table).
-/

/-- `SymonConfig` from `src/components/reporter/index.ts`. -/
structure SymonConfig where
  id : String
  url : String
  key : String
  interval : Option Nat
deriving DecidableEq, Repr

/-- The slice of the loaded configuration the reporter reads: the optional
`symon` block, the optional explicit `version` string, and `content`, which
stands for the rest of the configuration document (probes, notifications,
...) that the reporter only ever feeds to `md5Hash`. -/
structure Config where
  symon : Option SymonConfig
  version : Option String
  content : String
deriving DecidableEq, Repr

/-- Modelled from the spec: `md5Hash` (`src/utils/hash`, not under `src/`)
is a deterministic content hash of the full configuration structure — the
md5 digest of its canonical serialization. Embedded as a function of the
configuration value, which is all the claims need: equal configurations
hash equally, and the digest is a non-empty hex-like string. -/
def md5Hash (c : Config) : String :=
  "md5-" ++ c.content

/-- The config fingerprint attached to a report:
`config.version || md5Hash(config)` — JavaScript `||` falls through to the
hash when `version` is `undefined` or the (falsy) empty string. -/
def configVersion (c : Config) : String :=
  match c.version with
  | some v => if v = "" then md5Hash c else v
  | none => md5Hash c

/-- A row of the request-log table, `reported` flag included (same column
set as `History.HistoryRow`). -/
structure RequestLog where
  id : Nat
  created_at : String
  probe_id : String
  status_code : Int
  probe_name : String
  probe_url : String
  response_time : Int
  error_resp : String
  reported : Bool
deriving DecidableEq, Repr

/-- `UnreportedRequestsLog`: a request row as returned by the unreported
query (every column except `reported`). -/
structure UnreportedRequestsLog where
  id : Nat
  created_at : String
  probe_id : String
  status_code : Int
  probe_name : String
  probe_url : String
  response_time : Int
  error_resp : String
deriving DecidableEq, Repr

/-- Modelled from the spec (§3 NotificationLogEntry): a row of the
notification-log table, `reported` flag included. -/
structure NotificationLog where
  id : Nat
  created_at : String
  probe_id : String
  alert_id : String
  channel_id : String
  channel_type : String
  status : String
  message : String
  reported : Bool
deriving DecidableEq, Repr

/-- `UnreportedNotificationsLog`: a notification row as returned by the
unreported query (every column except `reported`). -/
structure UnreportedNotificationsLog where
  id : Nat
  created_at : String
  probe_id : String
  alert_id : String
  channel_id : String
  channel_type : String
  status : String
  message : String
deriving DecidableEq, Repr

/-- `Omit<UnreportedRequestsLog, 'id'>`: the request row as placed in the
report payload by `({ id: _, ...rest }) => rest`. -/
structure RequestNoId where
  created_at : String
  probe_id : String
  status_code : Int
  probe_name : String
  probe_url : String
  response_time : Int
  error_resp : String
deriving DecidableEq, Repr

/-- `Omit<UnreportedNotificationsLog, 'id'>`. -/
structure NotificationNoId where
  created_at : String
  probe_id : String
  alert_id : String
  channel_id : String
  channel_type : String
  status : String
  message : String
deriving DecidableEq, Repr

/-- The destructuring `({ id: _, ...rest }) => rest` on a request row:
every field except `id` is kept unchanged. -/
def UnreportedRequestsLog.omitId (r : UnreportedRequestsLog) : RequestNoId :=
  { created_at := r.created_at, probe_id := r.probe_id,
    status_code := r.status_code, probe_name := r.probe_name,
    probe_url := r.probe_url, response_time := r.response_time,
    error_resp := r.error_resp }

/-- The destructuring `({ id: _, ...rest }) => rest` on a notification row. -/
def UnreportedNotificationsLog.omitId (n : UnreportedNotificationsLog) :
    NotificationNoId :=
  { created_at := n.created_at, probe_id := n.probe_id,
    alert_id := n.alert_id, channel_id := n.channel_id,
    channel_type := n.channel_type, status := n.status,
    message := n.message }

/-- The two log tables the reporter reads and marks. -/
structure Store where
  requests : List RequestLog
  notifications : List NotificationLog
deriving DecidableEq, Repr

/-- Projection of a stored request row to the unreported-query shape. -/
def requestView (r : RequestLog) : UnreportedRequestsLog :=
  { id := r.id, created_at := r.created_at, probe_id := r.probe_id,
    status_code := r.status_code, probe_name := r.probe_name,
    probe_url := r.probe_url, response_time := r.response_time,
    error_resp := r.error_resp }

/-- Projection of a stored notification row to the unreported-query shape. -/
def notificationView (n : NotificationLog) : UnreportedNotificationsLog :=
  { id := n.id, created_at := n.created_at, probe_id := n.probe_id,
    alert_id := n.alert_id, channel_id := n.channel_id,
    channel_type := n.channel_type, status := n.status,
    message := n.message }

/-- Modelled from the spec (§4.1 `listUnreported`): the `getUnreportedLogs`
the reporter imports scans both tables filtered by `reported = false` and
returns them as a `{requests, notifications}` pair. -/
def getUnreportedLogs (s : Store) :
    List UnreportedRequestsLog × List UnreportedNotificationsLog :=
  ((s.requests.filter fun r => !r.reported).map requestView,
    (s.notifications.filter fun n => !n.reported).map notificationView)

/-- Modelled from the spec (§4.1 `markReported`) and from the observed
`setLogsAsReported`: the per-table mark runs
`UPDATE ... SET reported = 1 WHERE id IN (...)`; an empty id list is the
malformed `IN ()` (the promise rejects, nothing changes), a non-empty list
sets `reported = 1` for exactly the listed ids. -/
def setRequestLogAsReported (ids : List Nat) (rows : List RequestLog) :
    Except String (List RequestLog) :=
  if ids.isEmpty then
    Except.error "error, cannot mark logs as updated in history.db: syntax error"
  else
    Except.ok
      (rows.map fun r =>
        if ids.contains r.id then { r with reported := true } else r)

/-- Modelled from the spec (§4.1 `markReported`): the notification-table
twin of `setRequestLogAsReported`. -/
def setNotificationLogAsReported (ids : List Nat)
    (rows : List NotificationLog) : Except String (List NotificationLog) :=
  if ids.isEmpty then
    Except.error "error, cannot mark logs as updated in history.db: syntax error"
  else
    Except.ok
      (rows.map fun n =>
        if ids.contains n.id then { n with reported := true } else n)

/-- The `data` field of the report body. -/
structure ReportData where
  requests : List RequestNoId
  notifications : List NotificationNoId
deriving DecidableEq, Repr

/-- The JSON body `report` POSTs to `<url>/report` (before gzip):
`{ monika_instance_id, config_version, data }`. The gzip compression, the
`Content-Encoding: gzip` / `Content-Type: application/json` / `x-api-key`
headers and the target url do not change the body and are not embedded. -/
structure ReportBody where
  monika_instance_id : String
  config_version : String
  data : ReportData
deriving DecidableEq, Repr

/-- `report` builds the body it POSTs. -/
def report (_url _key : String) (instanceId : String)
    (configVersion : String) (data : ReportData) : ReportBody :=
  { monika_instance_id := instanceId, config_version := configVersion,
    data := data }

/-- Outcome of the POST to the collector, a parameter of the embedding:
either a 2xx acknowledgment or a network/transport/non-2xx failure whose
`msg` is the thrown error's message. -/
inductive NetResult
  | ok2xx
  | failure (msg : String)
deriving DecidableEq, Repr

/-- What one `getLogsAndReport` call did: the store afterwards, the bodies
POSTed to the collector (in order), and the warning lines logged. -/
structure RunResult where
  store : Store
  posts : List ReportBody
  warnings : List String
deriving DecidableEq, Repr

/-- The warning logged by the `catch` block of `getLogsAndReport`:
`" ›   Warning: Can't report history to Symon. " + error.message`. -/
def symonWarning (msg : String) : String :=
  " ›   Warning: Can\x27t report history to Symon. " ++ msg

/-- `getLogsAndReport`, the single-shot reporting step. When no `symon`
block is configured it does nothing. Otherwise it reads the unreported
batch, strips the `id` field from every row, POSTs the body built by
`report` (unconditionally — there is no empty-batch check), and on a 2xx
acknowledgment marks both tables through
`Promise.all([setRequestLogAsReported ..., setNotificationLogAsReported
...])`: both updates run, and if either rejects the `catch` block logs the
Symon warning. On a failed POST the `catch` block logs the warning and
nothing is marked. Every error is swallowed by the `catch`, so the function
always returns normally. -/
def getLogsAndReport (cfg : Config) (s : Store) (net : NetResult) :
    RunResult :=
  match cfg.symon with
  | none => { store := s, posts := [], warnings := [] }
  | some sy =>
    let unreported := getUnreportedLogs s
    let requests := unreported.1.map UnreportedRequestsLog.omitId
    let notifications := unreported.2.map UnreportedNotificationsLog.omitId
    let body := report sy.url sy.key sy.id (configVersion cfg)
      { requests := requests, notifications := notifications }
    match net with
    | NetResult.failure msg =>
      { store := s, posts := [body], warnings := [symonWarning msg] }
    | NetResult.ok2xx =>
      let reqIds := unreported.1.map fun l => l.id
      let notifIds := unreported.2.map fun l => l.id
      let reqRes := setRequestLogAsReported reqIds s.requests
      let notifRes := setNotificationLogAsReported notifIds s.notifications
      { store :=
          { requests := reqRes.toOption.getD s.requests,
            notifications := notifRes.toOption.getD s.notifications },
        posts := [body],
        warnings :=
          match reqRes, notifRes with
          | Except.ok _, Except.ok _ => []
          | Except.error e, _ => [symonWarning e]
          | _, Except.error e => [symonWarning e] }

end Reporter

/-! Concrete fixtures used by counterexamples and witnesses. -/

/-- A concrete request row with id 1, not yet reported. -/
def History.rowA : History.HistoryRow :=
  { id := 1, created_at := "2021-03-01T00:00:00.000Z", probe_id := "1",
    status_code := 200, probe_name := "Landing",
    probe_url := "https://example.com", response_time := 120,
    error_resp := "", reported := false }

/-- The same row, already reported. -/
def History.rowB : History.HistoryRow :=
  { History.rowA with id := 2, reported := true }

/-- A concrete symon block. -/
def Reporter.symonEx : Reporter.SymonConfig :=
  { id := "monika-1", url := "https://symon.example", key := "secret",
    interval := none }

/-- A configuration with a symon block and an explicit version. -/
def Reporter.cfgEx : Reporter.Config :=
  { symon := some Reporter.symonEx, version := some "1", content := "probes" }

/-- A configuration without a symon block. -/
def Reporter.cfgNoSymon : Reporter.Config :=
  { symon := none, version := none, content := "probes" }

/-- A configuration whose version is present but the empty string. -/
def Reporter.cfgEmptyVersion : Reporter.Config :=
  { symon := none, version := some "", content := "probes" }

/-- A store with no rows at all. -/
def Reporter.emptyStore : Reporter.Store :=
  { requests := [], notifications := [] }

/-- A concrete stored request row, not yet reported. -/
def Reporter.reqA : Reporter.RequestLog :=
  { id := 1, created_at := "2021-03-01T00:00:00.000Z", probe_id := "1",
    status_code := 200, probe_name := "Landing",
    probe_url := "https://example.com", response_time := 120,
    error_resp := "", reported := false }

/-- A concrete stored notification row, not yet reported. -/
def Reporter.notifA : Reporter.NotificationLog :=
  { id := 1, created_at := "2021-03-01T00:00:01.000Z", probe_id := "1",
    alert_id := "status-not-2xx", channel_id := "unique-id-smtp",
    channel_type := "smtp", status := "failed",
    message := "delivery refused", reported := false }

/-- A store holding one unreported request and one unreported
notification. -/
def Reporter.storeOne : Reporter.Store :=
  { requests := [Reporter.reqA], notifications := [Reporter.notifA] }

/-! Shared lemmas about the history-store embedding. -/

/-- `setLogsAsReported` succeeds exactly on a non-empty id list, and then
the new table is the row-wise `markRow` image of the old one. -/
theorem History.setLogsAsReported_ok_iff (ids : List Nat)
    (t t' : History.HistoryTable) :
    History.setLogsAsReported ids t = Except.ok t' ↔
      ids ≠ [] ∧ t' = t.map (History.markRow ids) := by
  unfold History.setLogsAsReported
  rcases ids with _ | ⟨i, ids⟩
  · simp
  · simp [eq_comm]

/-- Membership in the unreported batch is exactly: the image under the
SELECT projection of a row whose `reported` flag is false. -/
theorem History.mem_getUnreportedLogs (t : History.HistoryTable)
    (e : History.HistoryReportLogType) :
    e ∈ History.getUnreportedLogs t ↔
      ∃ r, r ∈ t ∧ r.reported = false ∧ e = History.reportView r := by
  unfold History.getUnreportedLogs
  simp only [List.mem_map, List.mem_filter, Bool.not_eq_true']
  constructor
  · rintro ⟨r, ⟨hr, hrep⟩, rfl⟩
    exact ⟨r, hr, hrep, rfl⟩
  · rintro ⟨r, hr, hrep, rfl⟩
    exact ⟨r, ⟨hr, hrep⟩, rfl⟩

/-- `markRow` never changes a row's id. -/
theorem History.markRow_id (ids : List Nat) (r : History.HistoryRow) :
    (History.markRow ids r).id = r.id := by
  unfold History.markRow
  split <;> rfl

/-- `markRow` never lowers a `reported` flag. -/
theorem History.markRow_reported_mono (ids : List Nat)
    (r : History.HistoryRow) (h : r.reported = true) :
    (History.markRow ids r).reported = true := by
  unfold History.markRow
  split
  · rfl
  · exact h

/-- A row whose id is in the IN list comes out reported. -/
theorem History.markRow_of_contains {ids : List Nat}
    {r : History.HistoryRow} (h : ids.contains r.id = true) :
    History.markRow ids r = { r with reported := true } := by
  unfold History.markRow
  rw [if_pos h]

/-- A row whose id is not in the IN list is untouched. -/
theorem History.markRow_of_not_contains {ids : List Nat}
    {r : History.HistoryRow} (h : ids.contains r.id = false) :
    History.markRow ids r = r := by
  unfold History.markRow
  rw [if_neg]
  simpa using h

/-- Row-prefix ordering: `t'` extends `t` with ids preserved positionally
and `reported` flags only ever raised. -/
def History.RowsLe (t t' : History.HistoryTable) : Prop :=
  t.length ≤ t'.length ∧
  ∀ i (h : i < t.length) (h' : i < t'.length),
    (t'.get ⟨i, h'⟩).id = (t.get ⟨i, h⟩).id ∧
    ((t.get ⟨i, h⟩).reported = true → (t'.get ⟨i, h'⟩).reported = true)

theorem History.rowsLe_refl (t : History.HistoryTable) :
    History.RowsLe t t :=
  ⟨Nat.le_refl _, fun _ _ _ => ⟨rfl, fun h => h⟩⟩

theorem History.rowsLe_trans {a b c : History.HistoryTable}
    (hab : History.RowsLe a b) (hbc : History.RowsLe b c) :
    History.RowsLe a c := by
  refine ⟨Nat.le_trans hab.1 hbc.1, fun i h h' => ?_⟩
  have hb : i < b.length := Nat.lt_of_lt_of_le h hab.1
  obtain ⟨hid1, hrep1⟩ := hab.2 i h hb
  obtain ⟨hid2, hrep2⟩ := hbc.2 i hb h'
  exact ⟨hid2.trans hid1, fun hr => hrep2 (hrep1 hr)⟩

/-- One store operation only appends rows or raises `reported` flags. -/
theorem History.applyOp_rowsLe (t : History.HistoryTable)
    (op : History.HistoryOp) : History.RowsLe t (History.applyOp t op) := by
  cases op with
  | insert a b c d e f g =>
    refine ⟨?_, fun i h h' => ?_⟩
    · simp [History.applyOp, History.saveLog]
    · have hg : (History.applyOp t (History.HistoryOp.insert a b c d e f g)).get
          ⟨i, h'⟩ = t.get ⟨i, h⟩ := by
        simp only [History.applyOp, History.saveLog, List.get_eq_getElem]
        exact List.getElem_append_left h
      rw [hg]
      exact ⟨rfl, fun hr => hr⟩
  | mark ids =>
    rcases ids with _ | ⟨j, rest⟩
    · simpa [History.applyOp, History.setLogsAsReported] using
        History.rowsLe_refl t
    · have ht : History.applyOp t (History.HistoryOp.mark (j :: rest)) =
          t.map (History.markRow (j :: rest)) := rfl
      refine ⟨?_, fun i h h' => ?_⟩
      · rw [ht]
        simp
      · simp only [List.get_eq_getElem, ht, List.getElem_map]
        exact ⟨History.markRow_id _ _,
          fun hr => History.markRow_reported_mono _ _ hr⟩
  | readAll => exact History.rowsLe_refl t
  | readUnreported => exact History.rowsLe_refl t

/-- A whole sequence of store operations only appends rows or raises
`reported` flags. -/
theorem History.applyOps_rowsLe (t : History.HistoryTable)
    (ops : List History.HistoryOp) :
    History.RowsLe t (History.applyOps t ops) := by
  induction ops generalizing t with
  | nil => exact History.rowsLe_refl t
  | cons op ops ih =>
    exact History.rowsLe_trans (History.applyOp_rowsLe t op)
      (ih (History.applyOp t op))

/-! Claim theorems. -/

/-- C10: `setLogsAsReported` on an empty id list generates the SQL text
`UPDATE history SET reported = 1 WHERE id IN ()`, which is malformed
(sqlite rejects the empty IN list), so the returned promise rejects instead
of succeeding as a no-op, on every table state. -/
theorem setLogsAsReported_empty_rejects :
    History.updateRowsSQL [] = "UPDATE history SET reported = 1 WHERE id IN ()" ∧
    ∀ t : History.HistoryTable, ∃ msg,
      History.setLogsAsReported [] t = Except.error msg := by
  refine ⟨by decide, fun t => ⟨_, rfl⟩⟩

/-- C8: after `flushAllLogs`, `getAllLogs` and `getUnreportedLogs` return
empty sequences, and the next `saveLog` inserts a row with id 1 — the id
sequence restarts from the beginning of a fresh sequence. -/
theorem flush_resets_store (t : History.HistoryTable) (pid ca : String)
    (sc : Int) (pn pu : String) (rt : Int) (er : String) :
    History.getAllLogs (History.flushAllLogs t) = [] ∧
    History.getUnreportedLogs (History.flushAllLogs t) = [] ∧
    History.saveLog (History.flushAllLogs t) pid ca sc pn pu rt er =
      [{ id := 1, created_at := ca, probe_id := pid, status_code := sc,
         probe_name := pn, probe_url := pu, response_time := rt,
         error_resp := er, reported := false }] :=
  ⟨rfl, rfl, rfl⟩

/-- C3 counterexample: the table holds exactly one row, with id 1 (visible
through `getAllLogs`); `setLogsAsReported [1, 2]` includes the nonexistent
id 2, yet the call succeeds (the UPDATE simply matches nothing for id 2)
instead of failing with a StoreWriteError as the claim states. -/
theorem markReported_missing_id_counterexample :
    History.setLogsAsReported [1, 2] [History.rowA] =
      Except.ok [{ History.rowA with reported := true }] ∧
    History.getAllLogs [History.rowA] =
      [{ id := 1, probe_id := "1", status_code := 200,
         probe_url := "https://example.com", response_time := 120 }] := by
  constructor
  · simp [History.setLogsAsReported, History.markRow, History.rowA]
  · simp [History.getAllLogs, History.rowA]

/-- C3 amended: for every non-empty id list, `setLogsAsReported` succeeds;
it sets `reported = true` for exactly the rows whose id is in the list and
leaves every other row unchanged; ids that exist in no row are silently
ignored rather than causing a failure. -/
theorem markReported_ok_semantics (ids : List Nat)
    (t : History.HistoryTable) (h : ids ≠ []) :
    ∃ t', History.setLogsAsReported ids t = Except.ok t' ∧
      t'.length = t.length ∧
      ∀ i (hi : i < t.length) (hi' : i < t'.length),
        (ids.contains (t.get ⟨i, hi⟩).id = true →
          t'.get ⟨i, hi'⟩ = { t.get ⟨i, hi⟩ with reported := true }) ∧
        (ids.contains (t.get ⟨i, hi⟩).id = false →
          t'.get ⟨i, hi'⟩ = t.get ⟨i, hi⟩) := by
  refine ⟨t.map (History.markRow ids),
    (History.setLogsAsReported_ok_iff ids t _).mpr ⟨h, rfl⟩,
    by simp, fun i hi hi' => ?_⟩
  have hg : (t.map (History.markRow ids)).get ⟨i, hi'⟩ =
      History.markRow ids (t.get ⟨i, hi⟩) := by
    simp [List.get_eq_getElem, List.getElem_map]
  refine ⟨fun hc => ?_, fun hc => ?_⟩
  · rw [hg, History.markRow_of_contains hc]
  · rw [hg, History.markRow_of_not_contains hc]

/-- C3 witness: marking id 1 in the one-row table succeeds and flips its
flag. -/
theorem markReported_ok_semantics_witness :
    ∃ t', History.setLogsAsReported [1] [History.rowA] = Except.ok t' ∧
      t'.length = ([History.rowA] : History.HistoryTable).length ∧
      ∀ i (hi : i < ([History.rowA] : History.HistoryTable).length)
        (hi' : i < t'.length),
        (([1] : List Nat).contains
            ((([History.rowA] : History.HistoryTable).get ⟨i, hi⟩).id) = true →
          t'.get ⟨i, hi'⟩ =
            { ([History.rowA] : History.HistoryTable).get ⟨i, hi⟩ with
                reported := true }) ∧
        (([1] : List Nat).contains
            ((([History.rowA] : History.HistoryTable).get ⟨i, hi⟩).id) = false →
          t'.get ⟨i, hi'⟩ =
            ([History.rowA] : History.HistoryTable).get ⟨i, hi⟩) :=
  markReported_ok_semantics [1] [History.rowA] (by decide)

/-- Every body POSTed by `getLogsAndReport` carries the fingerprint
`configVersion cfg`. -/
theorem Reporter.post_config_version (cfg : Reporter.Config)
    (s : Reporter.Store) (net : Reporter.NetResult) (b : Reporter.ReportBody)
    (hb : b ∈ (Reporter.getLogsAndReport cfg s net).posts) :
    b.config_version = Reporter.configVersion cfg := by
  unfold Reporter.getLogsAndReport at hb
  cases hcfg : cfg.symon with
  | none =>
    rw [hcfg] at hb
    simp at hb
  | some sy =>
    rw [hcfg] at hb
    cases net with
    | ok2xx =>
      simp only [List.mem_singleton] at hb
      rw [hb]
      rfl
    | failure msg =>
      simp only [List.mem_singleton] at hb
      rw [hb]
      rfl

/-- C1 counterexample: with a symon block configured and a completely
empty unreported batch (both sequences empty), `getLogsAndReport` still
makes one network call to the collector — there is no empty-batch NoOp
short-circuit in the code, and no NoOp outcome at all. -/
theorem emptyBatch_posts_counterexample :
    Reporter.getUnreportedLogs Reporter.emptyStore = ([], []) ∧
    (Reporter.getLogsAndReport Reporter.cfgEx Reporter.emptyStore
        Reporter.NetResult.ok2xx).posts.length = 1 :=
  ⟨rfl, rfl⟩

/-- C1 amended: `getLogsAndReport` performs the upload unconditionally —
whenever a symon block is configured it makes exactly one POST to the
collector, empty batch or not; when no symon block is configured it makes
none. -/
theorem reportOnce_always_posts (cfg : Reporter.Config)
    (s : Reporter.Store) (net : Reporter.NetResult) :
    (cfg.symon = none →
      Reporter.getLogsAndReport cfg s net =
        { store := s, posts := [], warnings := [] }) ∧
    (∀ sy, cfg.symon = some sy →
      (Reporter.getLogsAndReport cfg s net).posts.length = 1) := by
  constructor
  · intro h
    unfold Reporter.getLogsAndReport
    rw [h]
  · intro sy h
    unfold Reporter.getLogsAndReport
    rw [h]
    cases net <;> rfl

/-- C1 witness: no symon block — no POST; symon block — one POST. -/
theorem reportOnce_always_posts_witness :
    Reporter.getLogsAndReport Reporter.cfgNoSymon Reporter.storeOne
        Reporter.NetResult.ok2xx =
      { store := Reporter.storeOne, posts := [], warnings := [] } ∧
    (Reporter.getLogsAndReport Reporter.cfgEx Reporter.storeOne
        Reporter.NetResult.ok2xx).posts.length = 1 :=
  ⟨(reportOnce_always_posts Reporter.cfgNoSymon Reporter.storeOne
      Reporter.NetResult.ok2xx).1 rfl,
    (reportOnce_always_posts Reporter.cfgEx Reporter.storeOne
      Reporter.NetResult.ok2xx).2 Reporter.symonEx rfl⟩

/-- C2: when the POST to the collector fails, the store is returned
unchanged — no row is marked reported, so the next `getLogsAndReport`
reads the same unreported batch — and exactly one warning is logged, the
`catch` block's `Can't report history to Symon` line with the error's
message appended; the failure is swallowed, not propagated (the embedding
of `getLogsAndReport` is a total function precisely because the `catch`
swallows every error). -/
theorem reportFailure_marks_nothing (cfg : Reporter.Config)
    (s : Reporter.Store) (sy : Reporter.SymonConfig) (msg : String)
    (h : cfg.symon = some sy) :
    (Reporter.getLogsAndReport cfg s
        (Reporter.NetResult.failure msg)).store = s ∧
    Reporter.getUnreportedLogs
        (Reporter.getLogsAndReport cfg s
          (Reporter.NetResult.failure msg)).store =
      Reporter.getUnreportedLogs s ∧
    (Reporter.getLogsAndReport cfg s
        (Reporter.NetResult.failure msg)).warnings =
      [Reporter.symonWarning msg] ∧
    Reporter.symonWarning msg =
      " ›   Warning: " ++ "Can\x27t report history to Symon" ++
        (". " ++ msg) := by
  have hrun : Reporter.getLogsAndReport cfg s
      (Reporter.NetResult.failure msg) =
      { store := s,
        posts := [Reporter.report sy.url sy.key sy.id
          (Reporter.configVersion cfg)
          { requests := (Reporter.getUnreportedLogs s).1.map
              Reporter.UnreportedRequestsLog.omitId,
            notifications := (Reporter.getUnreportedLogs s).2.map
              Reporter.UnreportedNotificationsLog.omitId }],
        warnings := [Reporter.symonWarning msg] } := by
    unfold Reporter.getLogsAndReport
    rw [h]
  refine ⟨by rw [hrun], by rw [hrun], by rw [hrun], ?_⟩
  unfold Reporter.symonWarning
  rw [← String.append_assoc]
  congr 1

/-- C2 witness: a refused connection leaves the one-row store untouched
and logs the Symon warning. -/
theorem reportFailure_marks_nothing_witness :
    (Reporter.getLogsAndReport Reporter.cfgEx Reporter.storeOne
        (Reporter.NetResult.failure "connect ECONNREFUSED")).store =
      Reporter.storeOne ∧
    (Reporter.getLogsAndReport Reporter.cfgEx Reporter.storeOne
        (Reporter.NetResult.failure "connect ECONNREFUSED")).warnings =
      [Reporter.symonWarning "connect ECONNREFUSED"] := by
  obtain ⟨h1, -, h3, -⟩ := reportFailure_marks_nothing Reporter.cfgEx
    Reporter.storeOne Reporter.symonEx "connect ECONNREFUSED" rfl
  exact ⟨h1, h3⟩

/-- C6: the body POSTed by `getLogsAndReport` holds, for each request row
and each notification row of the unreported batch, the image of the row
under `omitId`, and `omitId` keeps every field of the row except `id`
unchanged (its codomain has no id field at all). -/
theorem payload_omits_id (cfg : Reporter.Config) (s : Reporter.Store)
    (sy : Reporter.SymonConfig) (net : Reporter.NetResult)
    (h : cfg.symon = some sy) :
    (∀ body ∈ (Reporter.getLogsAndReport cfg s net).posts,
      body.data.requests = (Reporter.getUnreportedLogs s).1.map
        Reporter.UnreportedRequestsLog.omitId ∧
      body.data.notifications = (Reporter.getUnreportedLogs s).2.map
        Reporter.UnreportedNotificationsLog.omitId) ∧
    (∀ r : Reporter.UnreportedRequestsLog,
      Reporter.UnreportedRequestsLog.omitId r =
        { created_at := r.created_at, probe_id := r.probe_id,
          status_code := r.status_code, probe_name := r.probe_name,
          probe_url := r.probe_url, response_time := r.response_time,
          error_resp := r.error_resp }) ∧
    (∀ n : Reporter.UnreportedNotificationsLog,
      Reporter.UnreportedNotificationsLog.omitId n =
        { created_at := n.created_at, probe_id := n.probe_id,
          alert_id := n.alert_id, channel_id := n.channel_id,
          channel_type := n.channel_type, status := n.status,
          message := n.message }) := by
  refine ⟨fun body hb => ?_, fun r => rfl, fun n => rfl⟩
  unfold Reporter.getLogsAndReport at hb
  rw [h] at hb
  cases net with
  | ok2xx =>
    simp only [List.mem_singleton] at hb
    rw [hb]
    exact ⟨rfl, rfl⟩
  | failure msg =>
    simp only [List.mem_singleton] at hb
    rw [hb]
    exact ⟨rfl, rfl⟩

/-- C6 witness: the concrete one-request one-notification store. -/
theorem payload_omits_id_witness :
    (∀ body ∈ (Reporter.getLogsAndReport Reporter.cfgEx Reporter.storeOne
        Reporter.NetResult.ok2xx).posts,
      body.data.requests =
        (Reporter.getUnreportedLogs Reporter.storeOne).1.map
          Reporter.UnreportedRequestsLog.omitId ∧
      body.data.notifications =
        (Reporter.getUnreportedLogs Reporter.storeOne).2.map
          Reporter.UnreportedNotificationsLog.omitId) ∧
    Reporter.UnreportedRequestsLog.omitId
        (Reporter.requestView Reporter.reqA) =
      { created_at := Reporter.reqA.created_at,
        probe_id := Reporter.reqA.probe_id,
        status_code := Reporter.reqA.status_code,
        probe_name := Reporter.reqA.probe_name,
        probe_url := Reporter.reqA.probe_url,
        response_time := Reporter.reqA.response_time,
        error_resp := Reporter.reqA.error_resp } := by
  obtain ⟨h1, h2, -⟩ := payload_omits_id Reporter.cfgEx Reporter.storeOne
    Reporter.symonEx Reporter.NetResult.ok2xx rfl
  exact ⟨h1, h2 (Reporter.requestView Reporter.reqA)⟩

/-- C7 counterexample: a configuration whose `version` field is present
but holds the empty string — JavaScript `||` treats it as falsy, so the
fingerprint is the md5 content hash, not the (present) version string. -/
theorem fingerprint_empty_version_counterexample :
    Reporter.cfgEmptyVersion.version = some "" ∧
    Reporter.configVersion Reporter.cfgEmptyVersion =
      Reporter.md5Hash Reporter.cfgEmptyVersion ∧
    Reporter.md5Hash Reporter.cfgEmptyVersion ≠ "" := by
  refine ⟨rfl, by decide, by decide⟩

/-- C7 amended: the fingerprint equals the explicit version string when
one is present and non-empty; when the version is absent or the empty
string it is the deterministic md5 content hash of the configuration; and
every body `getLogsAndReport` POSTs for one and the same configuration
carries one and the same fingerprint, whatever the store contents or the
network outcome. -/
theorem fingerprint_semantics (cfg : Reporter.Config) :
    (∀ v, cfg.version = some v → v ≠ "" →
      Reporter.configVersion cfg = v) ∧
    (cfg.version = none →
      Reporter.configVersion cfg = Reporter.md5Hash cfg) ∧
    (cfg.version = some "" →
      Reporter.configVersion cfg = Reporter.md5Hash cfg) ∧
    (∀ s₁ s₂ n₁ n₂ b₁ b₂,
      b₁ ∈ (Reporter.getLogsAndReport cfg s₁ n₁).posts →
      b₂ ∈ (Reporter.getLogsAndReport cfg s₂ n₂).posts →
      b₁.config_version = b₂.config_version) := by
  refine ⟨fun v hv hne => ?_, fun h => ?_, fun h => ?_,
    fun s₁ s₂ n₁ n₂ b₁ b₂ h₁ h₂ => ?_⟩
  · unfold Reporter.configVersion
    rw [hv]
    show (if v = "" then Reporter.md5Hash cfg else v) = v
    rw [if_neg hne]
  · unfold Reporter.configVersion
    rw [h]
  · unfold Reporter.configVersion
    rw [h]
    show (if ("" : String) = "" then Reporter.md5Hash cfg else "") =
      Reporter.md5Hash cfg
    rw [if_pos rfl]
  · rw [Reporter.post_config_version cfg s₁ n₁ b₁ h₁,
      Reporter.post_config_version cfg s₂ n₂ b₂ h₂]

/-- C7 witness: an explicit non-empty version is returned unchanged; an
absent version falls back to the hash. -/
theorem fingerprint_semantics_witness :
    Reporter.configVersion Reporter.cfgEx = "1" ∧
    Reporter.configVersion Reporter.cfgNoSymon =
      Reporter.md5Hash Reporter.cfgNoSymon :=
  ⟨(fingerprint_semantics Reporter.cfgEx).1 "1" rfl (by decide),
    (fingerprint_semantics Reporter.cfgNoSymon).2.1 rfl⟩

/-- C4 counterexample: opening over an existing one-row table with a sqlite
open error (`SQLITE_CANTOPEN`, e.g. an unwritable path) does not fail with
a StoreOpenError: `openLogfile` resolves normally, merely logging an info
line, and the table keeps its rows. -/
theorem openLogfile_counterexample :
    History.openLogfile (some [History.rowA])
        (some "SQLITE_CANTOPEN: unable to open database file") =
      Except.ok ([History.rowA],
        ["warning: cannot open logfile. error: SQLITE_CANTOPEN: unable to open database file"]) :=
  rfl

/-- C4 amended: `openLogfile` never fails — on an open error it logs
`warning: cannot open logfile. error: <msg>` and still runs `createTable`;
schema creation is create-if-not-exists, so an existing table keeps exactly
its rows and repeated opens are idempotent. -/
theorem openLogfile_never_fails (existing : Option History.HistoryTable)
    (err : Option String) (rows : History.HistoryTable) :
    (∃ res, History.openLogfile existing err = Except.ok res ∧
      res.1 = History.createTable existing) ∧
    (existing = some rows → History.createTable existing = rows) ∧
    History.createTable (some (History.createTable existing)) =
      History.createTable existing ∧
    (∀ m, err = some m →
      History.openLogfile existing err =
        Except.ok (History.createTable existing,
          ["warning: cannot open logfile. error: " ++ m])) := by
  refine ⟨⟨_, rfl, rfl⟩, fun h => by rw [h]; rfl, rfl, fun m hm => ?_⟩
  rw [hm]
  rfl

/-- C5: (a) after a successful `setLogsAsReported ids`, no element of the
unreported batch has an id in `ids`; (b) a row is in `getUnreportedLogs` if
and only if its `reported` flag is false (as seen through the SELECT
projection); (c) each row that existed at mark time and whose id is in
`ids` keeps `reported = true` and its id under every subsequent sequence of
insert/mark/read operations, so every later `getUnreportedLogs` excludes
it. -/
theorem unreported_excludes_marked (t t' : History.HistoryTable)
    (ids : List Nat) (h : History.setLogsAsReported ids t = Except.ok t') :
    (∀ e ∈ History.getUnreportedLogs t', ids.contains e.id = false) ∧
    (∀ u : History.HistoryTable, ∀ e,
      e ∈ History.getUnreportedLogs u ↔
        ∃ r, r ∈ u ∧ r.reported = false ∧ e = History.reportView r) ∧
    (∀ ops i (hi : i < t.length)
        (hi' : i < (History.applyOps t' ops).length),
      ids.contains ((t.get ⟨i, hi⟩).id) = true →
      ((History.applyOps t' ops).get ⟨i, hi'⟩).id = (t.get ⟨i, hi⟩).id ∧
      ((History.applyOps t' ops).get ⟨i, hi'⟩).reported = true) := by
  obtain ⟨-, rfl⟩ := (History.setLogsAsReported_ok_iff ids t t').mp h
  refine ⟨fun e he => ?_, fun u e => History.mem_getUnreportedLogs u e,
    fun ops i hi hi' hc => ?_⟩
  · obtain ⟨r, hr, hrep, rfl⟩ :=
      (History.mem_getUnreportedLogs _ e).mp he
    obtain ⟨r₀, hr₀, rfl⟩ := List.mem_map.mp hr
    by_cases hc : ids.contains r₀.id = true
    · rw [History.markRow_of_contains hc] at hrep
      simp at hrep
    · rw [Bool.not_eq_true] at hc
      rw [History.markRow_of_not_contains hc] at hrep ⊢
      exact hc
  · have hmap : i < (t.map (History.markRow ids)).length := by
      simpa using hi
    obtain ⟨hid, hrep⟩ :=
      (History.applyOps_rowsLe (t.map (History.markRow ids)) ops).2 i hmap hi'
    have hgm : (t.map (History.markRow ids)).get ⟨i, hmap⟩ =
        History.markRow ids (t.get ⟨i, hi⟩) := by
      simp [List.get_eq_getElem, List.getElem_map]
    have hmarked : (t.map (History.markRow ids)).get ⟨i, hmap⟩ =
        { t.get ⟨i, hi⟩ with reported := true } := by
      rw [hgm, History.markRow_of_contains hc]
    constructor
    · rw [hid, hmarked]
    · exact hrep (by rw [hmarked])

/-- C5 witness: marking id 1 in the one-row table makes every later
unreported batch exclude it. -/
theorem unreported_excludes_marked_witness :
    (∀ e ∈ History.getUnreportedLogs
        (([History.rowA] : History.HistoryTable).map (History.markRow [1])),
      ([1] : List Nat).contains e.id = false) ∧
    (∀ u : History.HistoryTable, ∀ e,
      e ∈ History.getUnreportedLogs u ↔
        ∃ r, r ∈ u ∧ r.reported = false ∧ e = History.reportView r) := by
  have hmk : History.setLogsAsReported [1] [History.rowA] =
      Except.ok (([History.rowA] : History.HistoryTable).map
        (History.markRow [1])) :=
    (History.setLogsAsReported_ok_iff [1] [History.rowA] _).mpr
      ⟨by decide, rfl⟩
  obtain ⟨h1, h2, -⟩ := unreported_excludes_marked [History.rowA] _ [1] hmk
  exact ⟨h1, h2⟩

/-- C9: (a) over any sequence of insert/mark/read operations the original
rows keep their position and id and their `reported` flag never drops from
true back to false; (b) an insert appends exactly one fresh row whose
`reported` flag is false; (c) the read operations and an insert leave all
existing rows untouched, so `setLogsAsReported` is the only operation that
changes a flag, and a successful mark sets the flag of row `i` to true
exactly when it was already true or its id is in the marked set (it never
clears it). -/
theorem reported_flag_monotone (t : History.HistoryTable)
    (ops : List History.HistoryOp) (pid ca : String) (sc : Int)
    (pn pu : String) (rt : Int) (er : String) :
    (t.length ≤ (History.applyOps t ops).length ∧
      ∀ i (hi : i < t.length) (hi' : i < (History.applyOps t ops).length),
        ((History.applyOps t ops).get ⟨i, hi'⟩).id = (t.get ⟨i, hi⟩).id ∧
        ((t.get ⟨i, hi⟩).reported = true →
          ((History.applyOps t ops).get ⟨i, hi'⟩).reported = true)) ∧
    (∃ r, History.applyOp t
        (History.HistoryOp.insert pid ca sc pn pu rt er) = t ++ [r] ∧
      r.reported = false) ∧
    (History.applyOp t History.HistoryOp.readAll = t ∧
      History.applyOp t History.HistoryOp.readUnreported = t ∧
      (History.applyOp t
          (History.HistoryOp.insert pid ca sc pn pu rt er)).take t.length
        = t) ∧
    (∀ ids t'', History.setLogsAsReported ids t = Except.ok t'' →
      ∀ i (hi : i < t.length) (hi' : i < t''.length),
        ((t''.get ⟨i, hi'⟩).reported = true ↔
          ((t.get ⟨i, hi⟩).reported = true ∨
            ids.contains (t.get ⟨i, hi⟩).id = true))) := by
  refine ⟨History.applyOps_rowsLe t ops, ⟨_, rfl, rfl⟩,
    ⟨rfl, rfl, by simp [History.applyOp, History.saveLog]⟩,
    fun ids t'' h i hi hi' => ?_⟩
  obtain ⟨-, rfl⟩ := (History.setLogsAsReported_ok_iff ids t t'').mp h
  have hg : (t.map (History.markRow ids)).get ⟨i, hi'⟩ =
      History.markRow ids (t.get ⟨i, hi⟩) := by
    simp [List.get_eq_getElem, List.getElem_map]
  rw [hg]
  by_cases hc : ids.contains (t.get ⟨i, hi⟩).id = true
  · rw [History.markRow_of_contains hc]
    simp only [List.get_eq_getElem] at hc ⊢
    simp only [true_iff, eq_self_iff_true]
    exact Or.inr hc
  · rw [Bool.not_eq_true] at hc
    rw [History.markRow_of_not_contains hc]
    simp only [List.get_eq_getElem] at hc ⊢
    constructor
    · exact fun hr => Or.inl hr
    · rintro (hr | hmem)
      · exact hr
      · rw [hc] at hmem
        exact absurd hmem (by decide)

/-- C9 witness: one unreported row, one reported row, then a mark of id 1
followed by an insert and reads — ids and raised flags persist. -/
theorem reported_flag_monotone_witness :
    (([History.rowA, History.rowB] : History.HistoryTable).length ≤
        (History.applyOps [History.rowA, History.rowB]
          [History.HistoryOp.mark [1], History.HistoryOp.readAll,
            History.HistoryOp.insert "2" "2021-03-02T00:00:00.000Z" 500
              "Login" "https://example.com/login" 300 "timeout",
            History.HistoryOp.readUnreported]).length) ∧
    ((History.applyOps [History.rowA, History.rowB]
        [History.HistoryOp.mark [1], History.HistoryOp.readAll,
          History.HistoryOp.insert "2" "2021-03-02T00:00:00.000Z" 500
            "Login" "https://example.com/login" 300 "timeout",
          History.HistoryOp.readUnreported]).get
        ⟨1, by decide⟩).reported = true := by
  have h := reported_flag_monotone [History.rowA, History.rowB]
    [History.HistoryOp.mark [1], History.HistoryOp.readAll,
      History.HistoryOp.insert "2" "2021-03-02T00:00:00.000Z" 500
        "Login" "https://example.com/login" 300 "timeout",
      History.HistoryOp.readUnreported]
    "2" "2021-03-02T00:00:00.000Z" 500 "Login" "https://example.com/login"
    300 "timeout"
  refine ⟨h.1.1, ?_⟩
  have h2 := (h.1.2 1 (by decide) (by decide)).2
  exact h2 (by decide)

/-- C4 witness: reopening over the one-row table with an open error keeps
the row. -/
theorem openLogfile_never_fails_witness :
    (∃ res, History.openLogfile (some [History.rowA]) (some "disk I/O error") =
        Except.ok res ∧
      res.1 = History.createTable (some [History.rowA])) ∧
    History.createTable (some [History.rowA]) = [History.rowA] ∧
    History.openLogfile (some [History.rowA]) (some "disk I/O error") =
      Except.ok (History.createTable (some [History.rowA]),
        ["warning: cannot open logfile. error: " ++ "disk I/O error"]) := by
  obtain ⟨h1, h2, _, h4⟩ :=
    openLogfile_never_fails (some [History.rowA]) (some "disk I/O error")
      [History.rowA]
  exact ⟨h1, h2 rfl, h4 "disk I/O error" rfl⟩
